import Mathlib

/-!
Shallow embedding of the TimeControl employee time-tracking frontend
(React SPA under src/), covering the data model in the shared types module,
the calendar and dashboard page handlers, the admin route guard, the API
client error interceptor, and the zustand auth and settings stores.
All definitions are translated from the TypeScript source; a definition
whose doc comment starts with "Modelled from the spec:" stands for backend
code that is not part of the repository snapshot.
-/

namespace TimeControl

/-! ## Data model (types module, src/unnamed/part_005) -/

/-- UserRole from the types module: employee or admin. -/
inductive UserRole
  | employee
  | admin
deriving DecidableEq, Repr

/-- WorkplaceType from the types module: office or remote. -/
inductive WorkplaceType
  | office
  | remote
deriving DecidableEq, Repr

/-- DayType from the types module: workday, weekend or holiday. -/
inductive DayType
  | workday
  | weekend
  | holiday
deriving DecidableEq, Repr

/-- StatusType (day status) from the types module. -/
inductive StatusType
  | normal
  | sick
  | vacation
  | excused
deriving DecidableEq, Repr

/-- ChangeRequestStatus from the types module. -/
inductive ChangeRequestStatus
  | pending
  | approved
  | rejected
deriving DecidableEq, Repr

/-- ChangeRequestType from the types module. -/
inductive ChangeRequestType
  | add
  | edit
  | delete
deriving DecidableEq, Repr

/-- User record (the fields the embedded components read). -/
structure User where
  id : Nat
  email : String
  role : UserRole
  is_active : Bool
deriving DecidableEq, Repr

/-- TimeEntry record. Times of day are minutes since midnight; dates are
absolute day numbers. duration_hours is the backend-computed field carried
on each entry. -/
structure TimeEntry where
  id : Nat
  date : Nat
  start_time : Nat
  end_time : Nat
  break_minutes : Nat
  workplace : WorkplaceType
  duration_hours : Rat
deriving DecidableEq, Repr

/-- DaySummary record: the entries list is the only field the embedded
handlers read. -/
structure DaySummary where
  entries : List TimeEntry
deriving DecidableEq, Repr

/-! ## Auth store (src/frontend/src/store/authStore.ts) -/

/-- The zustand auth store state. -/
structure AuthState where
  user : Option User
  isAuthenticated : Bool
  isLoading : Bool
  error : Option String
deriving DecidableEq, Repr

/-- The initial auth store state. -/
def authInitial : AuthState :=
  { user := none, isAuthenticated := false, isLoading := false, error := none }

/-- The set-calls the auth store operations perform, one constructor per
`set` site in authStore.ts. loginSuccess and checkAuthSuccess carry the
user returned by the API. -/
inductive AuthOp
  | loginStart
  | loginSuccess (u : User)
  | loginFailure (msg : String)
  | logoutOp
  | checkAuthNoToken
  | checkAuthStart
  | checkAuthSuccess (u : User)
  | checkAuthFailure
  | clearError

/-- State transition of the auth store, one case per `set` call in
authStore.ts. -/
def authStep (s : AuthState) : AuthOp → AuthState
  | AuthOp.loginStart => { s with isLoading := true, error := none }
  | AuthOp.loginSuccess u =>
      { s with user := some u, isAuthenticated := true, isLoading := false }
  | AuthOp.loginFailure m => { s with error := some m, isLoading := false }
  | AuthOp.logoutOp => { s with user := none, isAuthenticated := false }
  | AuthOp.checkAuthNoToken => { s with isAuthenticated := false, user := none }
  | AuthOp.checkAuthStart => { s with isLoading := true }
  | AuthOp.checkAuthSuccess u =>
      { s with user := some u, isAuthenticated := true, isLoading := false }
  | AuthOp.checkAuthFailure =>
      { s with user := none, isAuthenticated := false, isLoading := false }
  | AuthOp.clearError => { s with error := none }

/-- States of the auth store reachable from the initial state by the
store operations. -/
inductive AuthReachable : AuthState → Prop
  | init : AuthReachable authInitial
  | step : ∀ (s : AuthState) (op : AuthOp),
      AuthReachable s → AuthReachable (authStep s op)

/-- A sample employee user for concrete instantiations. -/
def sampleUser : User :=
  { id := 1, email := "a@b.lv", role := UserRole.employee, is_active := true }

/-! ## Day-summary aggregation (C1)

DailyOverviewPage.fetchDailyData computes an employee's day total as
`entries.reduce((sum, entry) => sum + (end.diff(start, hour, true) -
break_minutes / 60), 0)`; CalendarPage.dateCellRender sums the
backend-supplied `duration_hours` field; AdminDashboard sums the per-period
`total_hours` of each employee row of the stats summary. -/

/-- Per-entry hours as computed inside DailyOverviewPage.fetchDailyData:
fractional hours between start and end minus break minutes over 60. -/
def dailyOverviewEntryHours (e : TimeEntry) : Rat :=
  ((e.end_time : Rat) - (e.start_time : Rat)) / 60 - (e.break_minutes : Rat) / 60

/-- The reduce in DailyOverviewPage.fetchDailyData that accumulates
totalHours over an employee's entries for the selected day. -/
def dailyOverviewTotalHours (entries : List TimeEntry) : Rat :=
  entries.foldl (fun sum e => sum + dailyOverviewEntryHours e) 0

/-- The reduce in CalendarPage.dateCellRender: the cell's totalHours is the
sum of the duration_hours field over the entries of the date. -/
def calendarCellTotalHours (entries : List TimeEntry) : Rat :=
  entries.foldl (fun sum e => sum + e.duration_hours) 0

/-- An employee row of the admin stats summary as read by AdminDashboard
(src/unnamed/part_003): only total_hours is aggregated. -/
structure EmployeeSummaryRow where
  total_hours : Rat
deriving DecidableEq, Repr

/-- The reduce in AdminDashboard computing the company-wide totalHours from
the summary rows: `summary.employees.reduce((sum, e) => sum +
(e.total_hours || 0), 0)`. -/
def adminDashboardTotalHours (rows : List EmployeeSummaryRow) : Rat :=
  rows.foldl (fun sum r => sum + r.total_hours) 0

/-- The day total written as the claim words it: the sum over the entries
of (end_time minus start_time) minus break_minutes, converted to hours. -/
def dayTotalHoursClaim (entries : List TimeEntry) : Rat :=
  (entries.map (fun e =>
    (e.end_time : Rat) - (e.start_time : Rat) - (e.break_minutes : Rat))).sum / 60

/-- Modelled from the spec: the backend (not under src/) computes each
entry's duration by "applying break-minute deduction", so the stored
duration_hours field of an entry equals (end minus start minus break) in
hours. -/
def DurationFieldCoherent (e : TimeEntry) : Prop :=
  e.duration_hours =
    ((e.end_time : Rat) - (e.start_time : Rat) - (e.break_minutes : Rat)) / 60

/-- Modelled from the spec: the backend per-period statistics ("computing
per-period statistics") total an employee's period as the sum of the
per-day totals over the days of the period. -/
def periodTotalHours (days : List (List TimeEntry)) : Rat :=
  (days.map dayTotalHoursClaim).sum

/-! ## Weekly-missing-entry reminder walk (C2)

CalendarPage.checkWeeklyEntries: dates are absolute day numbers chosen so
that a date's dayjs day-of-week index (0 = Sunday .. 6 = Saturday) is the
date modulo 7. -/

/-- The data the walk consults for a date: the calendar map (day_type of
the fetched CalendarDay, if any), the status map (DayStatus of the date,
if any), and whether the entries map marks the date as having an entry. -/
structure WeekContext where
  calDayType : Nat → Option DayType
  dayStatus : Nat → Option StatusType
  hasEntry : Nat → Bool

/-- The sick/vacation/excused skip condition of the walk. -/
def skipStatus : Option StatusType → Bool
  | some StatusType.sick => true
  | some StatusType.vacation => true
  | some StatusType.excused => true
  | _ => false

/-- The while loop of checkWeeklyEntries over the remaining dates: skip
weekends, skip holidays, skip sick/vacation/excused days, and collect the
dates without a time entry. -/
def walkMissing (ctx : WeekContext) : List Nat → List Nat
  | [] => []
  | d :: rest =>
      if d % 7 = 0 ∨ d % 7 = 6 then walkMissing ctx rest
      else if ctx.calDayType d = some DayType.holiday then walkMissing ctx rest
      else if skipStatus (ctx.dayStatus d) then walkMissing ctx rest
      else if ctx.hasEntry d = false then d :: walkMissing ctx rest
      else walkMissing ctx rest

/-- The dates the walk visits: weekStart (Monday of the current ISO week)
through weekStart plus 4 days (Friday). -/
def weekDays (weekStart : Nat) : List Nat :=
  [weekStart, weekStart + 1, weekStart + 2, weekStart + 3, weekStart + 4]

/-- Outcome of checkWeeklyEntries: whether the walk ran, the missing-day
list, and whether the weekly reminder dialog was opened. -/
structure ReminderOutcome where
  walkPerformed : Bool
  missingDays : List Nat
  reminderVisible : Bool
deriving DecidableEq, Repr

/-- checkWeeklyEntries: admins are skipped before any walk; otherwise the
walk runs over the Monday..Friday dates and the reminder dialog opens when
the missing list is non-empty. -/
def checkWeeklyEntries (role : UserRole) (weekStart : Nat)
    (ctx : WeekContext) : ReminderOutcome :=
  if role = UserRole.admin then
    { walkPerformed := false, missingDays := [], reminderVisible := false }
  else
    let missing := walkMissing ctx (weekDays weekStart)
    { walkPerformed := true, missingDays := missing,
      reminderVisible := decide (0 < missing.length) }

/-- Concrete entries and summary row used to instantiate the aggregation
theorem: a 9:00 to 17:30 office entry with a 60 minute break and an
18:00 to 19:00 remote entry with no break. -/
def wEntry1 : TimeEntry :=
  { id := 1, date := 0, start_time := 540, end_time := 1050,
    break_minutes := 60, workplace := WorkplaceType.office,
    duration_hours := 15 / 2 }

/-- Second concrete entry for the aggregation witness. -/
def wEntry2 : TimeEntry :=
  { id := 2, date := 0, start_time := 1080, end_time := 1140,
    break_minutes := 0, workplace := WorkplaceType.remote,
    duration_hours := 1 }

/-- Concrete admin summary row for the aggregation witness. -/
def wRow : EmployeeSummaryRow := { total_hours := 17 / 2 }

/-! ## Vacation date handling (C3), DashboardPage -/

/-- The vacation payload fields sent to the API by handleCreateVacation
and handleEditVacation. Dates are absolute day numbers. -/
structure VacationPayload where
  date_from : Nat
  date_to : Nat
deriving DecidableEq, Repr

/-- handleCreateVacation: the RangePicker value `dates` is sent as
date_from := dates[0] and date_to := dates[1], with no further check. -/
def handleCreateVacationPayload (dates : Nat × Nat) : VacationPayload :=
  { date_from := dates.1, date_to := dates.2 }

/-- The disabledDate callback of both DatePickers in the edit-vacation
modal: a date is selectable unless it is before the start of today. -/
def editVacationDateSelectable (today d : Nat) : Bool :=
  !(d < today)

/-- The edit-vacation form constraints: the only date rules are that each
of the two independent DatePickers refuses dates before today; there is no
rule relating date_from and date_to. -/
def editVacationFormAccepts (today dFrom dTo : Nat) : Bool :=
  editVacationDateSelectable today dFrom && editVacationDateSelectable today dTo

/-- handleEditVacation: the form's date_from and date_to are sent to the
API unchanged. -/
def handleEditVacationPayload (dFrom dTo : Nat) : VacationPayload :=
  { date_from := dFrom, date_to := dTo }

/-! ## Admin route guard (C4), App.tsx -/

/-- What a route guard component renders. -/
inductive RenderResult
  | spinner
  | navigate (path : String)
  | children
deriving DecidableEq, Repr

/-- The `user?.role !== admin` test of AdminRoute: a missing user never
counts as admin. -/
def userRoleIsAdmin : Option User → Bool
  | some u => u.role = UserRole.admin
  | none => false

/-- AdminRoute from App.tsx: spinner while the auth store is loading, a
redirect to /login when unauthenticated, a redirect to / when the user is
not an admin, and the children otherwise. -/
def AdminRoute (isLoading isAuthenticated : Bool) (user : Option User) :
    RenderResult :=
  if isLoading then RenderResult.spinner
  else if !isAuthenticated then RenderResult.navigate "/login"
  else if !(userRoleIsAdmin user) then RenderResult.navigate "/"
  else RenderResult.children

/-- A sample admin user for concrete instantiations. -/
def sampleAdmin : User :=
  { id := 2, email := "c@d.lv", role := UserRole.admin, is_active := true }

/-! ## API client error handling (C5)

The ApiService response interceptor (src/unnamed/part_008) and the
edit/delete catch blocks of CalendarPage. -/

/-- The error data the interceptor inspects: HTTP status of the response,
the per-request retry marker, and the application detail string. -/
structure ApiError where
  status : Nat
  retried : Bool
  detail : Option String
deriving DecidableEq, Repr

/-- What the response interceptor does with a failed response. -/
inductive InterceptorAction
  | refreshAndRetry
  | logoutRedirect
  | rejectError
deriving DecidableEq, Repr

/-- The response interceptor of ApiService: on a 401 that has not been
retried, with a refresh token in storage, it refreshes the tokens and
replays the original request; a failing refresh logs out and redirects to
/login; every other error is rejected to the caller. -/
def responseInterceptorOnError (hasRefreshToken refreshSucceeds : Bool)
    (e : ApiError) : InterceptorAction :=
  if e.status = 401 ∧ e.retried = false then
    if hasRefreshToken then
      if refreshSucceeds then InterceptorAction.refreshAndRetry
      else InterceptorAction.logoutRedirect
    else InterceptorAction.rejectError
  else InterceptorAction.rejectError

/-- What the CalendarPage edit/delete catch blocks do with a failure. -/
inductive EntryErrorHandling
  | openChangeRequestFlow
  | showMessage (msg : String)
deriving DecidableEq, Repr

/-- The catch block of CalendarPage.handleEditEntry: the distinguished
detail EDIT_TIME_EXPIRED opens the change-request flow, anything else is
shown as a message. -/
def handleEditEntryCatch (detail : Option String) : EntryErrorHandling :=
  if detail = some "EDIT_TIME_EXPIRED" then EntryErrorHandling.openChangeRequestFlow
  else EntryErrorHandling.showMessage (detail.getD "Failed to update entry")

/-- The catch block of CalendarPage.handleDeleteEntry. -/
def handleDeleteEntryCatch (detail : Option String) : EntryErrorHandling :=
  if detail = some "EDIT_TIME_EXPIRED" then EntryErrorHandling.openChangeRequestFlow
  else EntryErrorHandling.showMessage "Failed to delete entry"

/-! ## Time-entry creation and editing handlers (C6, C7)

DashboardPage.handleCreateEntry, CalendarPage.handleCreateEntry,
CalendarPage.handleWeeklyEntrySubmit, CalendarPage.handleEditEntry and
CalendarPage.handleCreateChangeRequest, embedded as the sequence of
effects each handler performs. -/

/-- The body of an api.createTimeEntry call. -/
structure TimeEntryPayload where
  date : Nat
  start_time : Nat
  end_time : Nat
  break_minutes : Nat
  workplace : WorkplaceType
deriving DecidableEq, Repr

/-- The body of an api.updateTimeEntry call (no date field). -/
structure TimeEntryUpdatePayload where
  start_time : Nat
  end_time : Nat
  break_minutes : Nat
  workplace : WorkplaceType
deriving DecidableEq, Repr

/-- The observable effects a handler performs, in source order. -/
inductive UIEffect
  | messageError
  | messageSuccess
  | apiCreateTimeEntry (p : TimeEntryPayload)
  | apiUpdateTimeEntry (id : Nat) (p : TimeEntryUpdatePayload)
  | closeEntryModal
  | resetForm
  | refetchData
deriving DecidableEq, Repr

/-- The time-entry form values: TimePicker times as minutes since midnight
(hour times 60 plus minute) and the workplace select. -/
structure EntryFormValues where
  start_time : Nat
  end_time : Nat
  workplace : WorkplaceType
deriving DecidableEq, Repr

/-- The entries of an optional day summary; a missing summary or entry
list reads as empty. -/
def summaryEntries : Option DaySummary → List TimeEntry
  | some s => s.entries
  | none => []

/-- The isFirstEntry test of both create handlers:
`!summary?.entries || summary.entries.length === 0`. -/
def isFirstEntry (summary : Option DaySummary) : Bool :=
  summaryEntries summary = []

/-- Break minutes both create handlers enforce: 60 for the first entry of
the day, 0 for any later entry. -/
def createBreakMins (summary : Option DaySummary) : Nat :=
  if isFirstEntry summary then 60 else 0

/-- existingWorkMinutes of both create handlers:
`summary?.entries?.reduce((sum, e) => sum + e.duration_hours * 60, 0) || 0`. -/
def existingWorkMinutes (summary : Option DaySummary) : Rat :=
  (summaryEntries summary).foldl (fun sum e => sum + e.duration_hours * 60) 0

/-- The new entry's work minutes in both create handlers: (end minutes
minus start minutes) minus the enforced break. -/
def newWorkMinutes (summary : Option DaySummary) (v : EntryFormValues) : Rat :=
  ((v.end_time : Rat) - (v.start_time : Rat)) - (createBreakMins summary : Rat)

/-- DashboardPage.handleCreateEntry: reject with only an error message when
existing plus new work exceeds 480 minutes, otherwise create the entry for
today and refresh. -/
def dashboardHandleCreateEntry (today : Nat) (summary : Option DaySummary)
    (v : EntryFormValues) : List UIEffect :=
  if existingWorkMinutes summary + newWorkMinutes summary v > 480 then
    [UIEffect.messageError]
  else
    [UIEffect.apiCreateTimeEntry
      { date := today, start_time := v.start_time, end_time := v.end_time,
        break_minutes := createBreakMins summary, workplace := v.workplace },
     UIEffect.messageSuccess, UIEffect.closeEntryModal, UIEffect.resetForm,
     UIEffect.refetchData]

/-- CalendarPage.handleCreateEntry: same validation and payload as the
dashboard handler, for the selected date. -/
def calendarHandleCreateEntry (selectedDate : Nat) (summary : Option DaySummary)
    (v : EntryFormValues) : List UIEffect :=
  if existingWorkMinutes summary + newWorkMinutes summary v > 480 then
    [UIEffect.messageError]
  else
    [UIEffect.apiCreateTimeEntry
      { date := selectedDate, start_time := v.start_time, end_time := v.end_time,
        break_minutes := createBreakMins summary, workplace := v.workplace },
     UIEffect.messageSuccess, UIEffect.closeEntryModal, UIEffect.resetForm,
     UIEffect.refetchData]

/-- CalendarPage.handleWeeklyEntrySubmit: the break is always 60 (the
reminder only lists days without entries) and only the new entry's work
minutes are checked against 480. -/
def weeklyHandleEntrySubmit (fillingDay : Nat) (v : EntryFormValues) :
    List UIEffect :=
  if ((v.end_time : Rat) - (v.start_time : Rat)) - 60 > 480 then
    [UIEffect.messageError]
  else
    [UIEffect.apiCreateTimeEntry
      { date := fillingDay, start_time := v.start_time, end_time := v.end_time,
        break_minutes := 60, workplace := v.workplace },
     UIEffect.messageSuccess, UIEffect.refetchData]

/-- CalendarPage.handleEditEntry: the existing break value is kept (the
user cannot change it) and the single entry's work minutes are checked
against 480. -/
def calendarHandleEditEntry (editingEntry : TimeEntry) (v : EntryFormValues) :
    List UIEffect :=
  if ((v.end_time : Rat) - (v.start_time : Rat)) - (editingEntry.break_minutes : Rat) > 480 then
    [UIEffect.messageError]
  else
    [UIEffect.apiUpdateTimeEntry editingEntry.id
      { start_time := v.start_time, end_time := v.end_time,
        break_minutes := editingEntry.break_minutes, workplace := v.workplace },
     UIEffect.messageSuccess, UIEffect.closeEntryModal, UIEffect.resetForm,
     UIEffect.refetchData]

/-- The create payload a handler sent, if any. -/
def sentCreatePayload (effs : List UIEffect) : Option TimeEntryPayload :=
  effs.findSome? fun eff =>
    match eff with
    | UIEffect.apiCreateTimeEntry p => some p
    | _ => none

/-- The update payload a handler sent, if any. -/
def sentUpdatePayload (effs : List UIEffect) : Option TimeEntryUpdatePayload :=
  effs.findSome? fun eff =>
    match eff with
    | UIEffect.apiUpdateTimeEntry _ p => some p
    | _ => none

/-- The change-request form fields consulted by the break rule of
CalendarPage.handleCreateChangeRequest. -/
structure ChangeRequestFormValues where
  request_type : ChangeRequestType
  time_entry_id : Nat
  break_minutes : Nat
deriving DecidableEq, Repr

/-- The break determination of CalendarPage.handleCreateChangeRequest:
for an add request 0 when the day has entries and 60 otherwise; for an
edit request the break of the selected entry, defaulting to 60 when it is
not found; for a delete request the form value. -/
def changeRequestBreakMins (summary : Option DaySummary)
    (v : ChangeRequestFormValues) : Nat :=
  match v.request_type with
  | ChangeRequestType.add =>
      if !(summaryEntries summary).isEmpty then 0 else 60
  | ChangeRequestType.edit =>
      (((summaryEntries summary).find? (fun e => e.id == v.time_entry_id)).map
        TimeEntry.break_minutes).getD 60
  | ChangeRequestType.delete => v.break_minutes

/-- The admin daily-overview entry form values (DailyOverviewPage): unlike
the employee forms, its break-minutes InputNumber is enabled, so
break_minutes is a free form field. -/
structure AdminEntryFormValues where
  start_time : Nat
  end_time : Nat
  break_minutes : Nat
  workplace : WorkplaceType
deriving DecidableEq, Repr

/-- openAddModal in DailyOverviewPage: the form is reset and break_minutes
is prefilled with 0, regardless of the day's existing entries. -/
def adminAddModalDefaultBreak : Nat := 0

/-- handleSaveEntry in DailyOverviewPage: the form's break value
(`values.break_minutes || 0`) is sent unchanged, as an update of the
edited entry when one is being edited and as a create for the selected
employee otherwise. -/
def handleSaveEntry (selectedDate : Nat) (editingEntry : Option TimeEntry)
    (v : AdminEntryFormValues) : UIEffect :=
  match editingEntry with
  | some entry =>
      UIEffect.apiUpdateTimeEntry entry.id
        { start_time := v.start_time, end_time := v.end_time,
          break_minutes := v.break_minutes, workplace := v.workplace }
  | none =>
      UIEffect.apiCreateTimeEntry
        { date := selectedDate, start_time := v.start_time,
          end_time := v.end_time, break_minutes := v.break_minutes,
          workplace := v.workplace }

/-! ## Change-request workflow (C8)

The status and request-type universes are the ChangeRequestStatus and
ChangeRequestType types of the types module; the creation sites are the
CalendarPage change-request modal; the admin resolution is
ChangeRequestsPage (the second document of
src/Projects/TimeControl/frontend/src/pages/admin/DailyOverviewPage.tsx). -/

/-- The request_type options offered by the change-request modal Select in
CalendarPage: add, edit and delete. -/
def changeRequestTypeOptions : List ChangeRequestType :=
  [ChangeRequestType.add, ChangeRequestType.edit, ChangeRequestType.delete]

/-- Modelled from the spec: the backend route handling change-request
creation is not under src/ (the API client posts a payload without a
status field); per the approval workflow every change request is created
with status pending. -/
def createdChangeRequestStatus : ChangeRequestStatus := ChangeRequestStatus.pending

/-- ChangeRequestsPage.handleResolve: the resolution request carries
status approved when the approve button was clicked and rejected when the
reject button was. -/
def handleResolveStatus (approved : Bool) : ChangeRequestStatus :=
  if approved then ChangeRequestStatus.approved else ChangeRequestStatus.rejected

/-- The resolve-modal footer of ChangeRequestsPage: the approve and reject
buttons are rendered only when the selected request's status is pending;
for any other status only a close button shows. -/
def resolveButtonsShown (selectedStatus : ChangeRequestStatus) : Bool :=
  selectedStatus = ChangeRequestStatus.pending

/-- The status transition an admin resolution performs, from
ChangeRequestsPage: the approve/reject buttons are shown only for a
pending request, and clicking one resolves it to handleResolveStatus of
the clicked button. -/
inductive ChangeRequestStep : ChangeRequestStatus → ChangeRequestStatus → Prop
  | resolve (approved : Bool) :
      ChangeRequestStep ChangeRequestStatus.pending (handleResolveStatus approved)

/-! ## Client-side scheduling and persisted caches (C9)

The NotificationBell mount effect (src/unnamed/part_007) and the settings
store (src/frontend/src/store/settingsStore.ts). -/

/-- CompanySettings from the types module. -/
structure CompanySettings where
  logo_url : Option String
  icon_vacation : String
  icon_sick : String
  icon_office : String
  icon_remote : String
  icon_holiday : String
  icon_excused : String
deriving DecidableEq, Repr

/-- defaultSettings of the settings store. -/
def defaultSettings : CompanySettings :=
  { logo_url := none, icon_vacation := "Palmtree", icon_sick := "Cross",
    icon_office := "Building2", icon_remote := "Monitor",
    icon_holiday := "Gift", icon_excused := "CircleCheckBig" }

/-- The zustand settings store state. -/
structure SettingsState where
  settings : CompanySettings
  isLoading : Bool
  error : Option String
deriving DecidableEq, Repr

/-- The initial settings store state. -/
def settingsInitial : SettingsState :=
  { settings := defaultSettings, isLoading := false, error := none }

/-- The successful branch of fetchSettings: the server settings are spread
over the defaults and stored; a complete server object replaces every
field. -/
def fetchSettingsSuccess (s : SettingsState) (fetched : CompanySettings) :
    SettingsState :=
  { s with settings := fetched, isLoading := false }

/-- The partialize function of the settings store persist middleware: the
settings slice is written to localStorage under settings-storage. -/
def settingsPartialize (s : SettingsState) : CompanySettings :=
  s.settings

/-- The slice of the auth store the persist middleware writes to
localStorage under auth-storage: the user and isAuthenticated fields. -/
structure AuthPersistSlice where
  user : Option User
  isAuthenticated : Bool
deriving DecidableEq, Repr

/-- The partialize function of the auth store persist middleware
(authStore.ts): user and isAuthenticated are persisted. -/
def authPersistSlice (s : AuthState) : AuthPersistSlice :=
  { user := s.user, isAuthenticated := s.isAuthenticated }

/-- Effects the NotificationBell mount effect performs. -/
inductive ClientEffect
  | fetchNotifications
  | setPeriodicTimer (periodMs : Nat)
deriving DecidableEq, Repr

/-- The mount useEffect of NotificationBell: fetch the notifications once,
then poll them with setInterval every 60000 milliseconds. -/
def notificationBellMountEffects : List ClientEffect :=
  [ClientEffect.fetchNotifications, ClientEffect.setPeriodicTimer 60000]

/-- A concrete server settings object distinct from the defaults, for
instantiating the persistence theorems. -/
def wServerSettings : CompanySettings :=
  { logo_url := some "/logo.png", icon_vacation := "Plane", icon_sick := "Cross",
    icon_office := "Building2", icon_remote := "Monitor",
    icon_holiday := "Gift", icon_excused := "CircleCheckBig" }

/-- A concrete entry whose backend duration is one hour, for instantiating
the handler theorems. -/
def wSmallEntry : TimeEntry :=
  { id := 7, date := 0, start_time := 600, end_time := 660,
    break_minutes := 0, workplace := WorkplaceType.office,
    duration_hours := 1 }

end TimeControl

namespace TimeControl

/-- Folding addition of a mapped value equals the mapped sum. -/
theorem foldl_add_map_sum {α : Type} (f : α → Rat) (l : List α) (a : Rat) :
    l.foldl (fun sum e => sum + f e) a = a + (l.map f).sum := by
  induction l generalizing a with
  | nil => simp
  | cons x xs ih => simp [List.foldl_cons, ih (a + f x)]; ring

/-- Membership in the walk result is membership in the visited dates
together with all four negative side conditions. -/
theorem mem_walkMissing (ctx : WeekContext) (l : List Nat) (d : Nat) :
    d ∈ walkMissing ctx l ↔
      d ∈ l ∧ ¬(d % 7 = 0 ∨ d % 7 = 6) ∧
      ctx.calDayType d ≠ some DayType.holiday ∧
      skipStatus (ctx.dayStatus d) = false ∧
      ctx.hasEntry d = false := by
  induction l with
  | nil => simp [walkMissing]
  | cons x xs ih =>
      by_cases hw : x % 7 = 0 ∨ x % 7 = 6
      · rw [walkMissing, if_pos hw, ih]
        constructor
        · rintro ⟨hm, h1, h2, h3, h4⟩; exact ⟨List.mem_cons_of_mem x hm, h1, h2, h3, h4⟩
        · rintro ⟨hm, h1, h2, h3, h4⟩
          rcases List.mem_cons.mp hm with rfl | hm
          · exact absurd hw h1
          · exact ⟨hm, h1, h2, h3, h4⟩
      · by_cases hh : ctx.calDayType x = some DayType.holiday
        · rw [walkMissing, if_neg hw, if_pos hh, ih]
          constructor
          · rintro ⟨hm, h1, h2, h3, h4⟩; exact ⟨List.mem_cons_of_mem x hm, h1, h2, h3, h4⟩
          · rintro ⟨hm, h1, h2, h3, h4⟩
            rcases List.mem_cons.mp hm with rfl | hm
            · exact absurd hh h2
            · exact ⟨hm, h1, h2, h3, h4⟩
        · by_cases hs : skipStatus (ctx.dayStatus x) = true
          · rw [walkMissing, if_neg hw, if_neg hh, if_pos hs, ih]
            constructor
            · rintro ⟨hm, h1, h2, h3, h4⟩; exact ⟨List.mem_cons_of_mem x hm, h1, h2, h3, h4⟩
            · rintro ⟨hm, h1, h2, h3, h4⟩
              rcases List.mem_cons.mp hm with rfl | hm
              · rw [hs] at h3; exact absurd h3 (by simp)
              · exact ⟨hm, h1, h2, h3, h4⟩
          · have hs0 : skipStatus (ctx.dayStatus x) = false := by
              cases hxs : skipStatus (ctx.dayStatus x)
              · rfl
              · exact absurd hxs hs
            by_cases he : ctx.hasEntry x = false
            · rw [walkMissing, if_neg hw, if_neg hh, if_neg hs, if_pos he]
              simp only [List.mem_cons, ih]
              constructor
              · rintro (rfl | ⟨hm, h1, h2, h3, h4⟩)
                · exact ⟨Or.inl rfl, hw, hh, hs0, he⟩
                · exact ⟨Or.inr hm, h1, h2, h3, h4⟩
              · rintro ⟨rfl | hm, h1, h2, h3, h4⟩
                · exact Or.inl rfl
                · exact Or.inr ⟨hm, h1, h2, h3, h4⟩
            · rw [walkMissing, if_neg hw, if_neg hh, if_neg hs, if_neg he, ih]
              constructor
              · rintro ⟨hm, h1, h2, h3, h4⟩; exact ⟨List.mem_cons_of_mem x hm, h1, h2, h3, h4⟩
              · rintro ⟨hm, h1, h2, h3, h4⟩
                rcases List.mem_cons.mp hm with rfl | hm
                · exact absurd h4 he
                · exact ⟨hm, h1, h2, h3, h4⟩

/-- Sum of mapped quotients equals the mapped sum divided. -/
theorem sum_map_div {α : Type} (g : α → Rat) (l : List α) (c : Rat) :
    (l.map (fun x => g x / c)).sum = (l.map g).sum / c := by
  induction l with
  | nil => simp
  | cons x xs ih => simp [ih, add_div]


/-- C10: in every reachable auth-store state, isAuthenticated implies the
user field is non-null, and every single operation preserves this
invariant. -/
theorem authStore_isAuthenticated_implies_user
    (s : AuthState) (h : AuthReachable s) :
    (s.isAuthenticated = true → s.user.isSome = true) ∧
    (∀ (t : AuthState) (op : AuthOp),
      (t.isAuthenticated = true → t.user.isSome = true) →
      ((authStep t op).isAuthenticated = true →
        (authStep t op).user.isSome = true)) := by
  constructor
  · induction h with
    | init => intro hc; simp [authInitial] at hc
    | step t op _ ih =>
        cases op <;> simp [authStep] <;> intro hc <;> exact ih hc
  · intro t op hinv
    cases op <;> simp [authStep] <;> intro hc <;> exact hinv hc

/-- Witness for C10: the state reached by a successful login from the
initial state is authenticated and holds a user. -/
theorem authStore_isAuthenticated_implies_user_witness :
    (authStep authInitial (AuthOp.loginSuccess sampleUser)).user.isSome = true :=
  (authStore_isAuthenticated_implies_user
    (authStep authInitial (AuthOp.loginSuccess sampleUser))
    (AuthReachable.step authInitial (AuthOp.loginSuccess sampleUser)
      AuthReachable.init)).1 rfl

/-- C1: the day total of DailyOverviewPage equals the sum over the entries
of (end minus start) minus break, in hours; the calendar cell total equals
the same once the backend duration field is coherent; and the company-wide
total of AdminDashboard equals the sum over employees of the sum of their
per-day totals once each row carries the backend per-period total. -/
theorem dayAggregation_correct (entries : List TimeEntry)
    (rows : List EmployeeSummaryRow)
    (periodDays : EmployeeSummaryRow → List (List TimeEntry))
    (hdur : ∀ e ∈ entries, DurationFieldCoherent e)
    (hrows : ∀ r ∈ rows, r.total_hours = periodTotalHours (periodDays r)) :
    dailyOverviewTotalHours entries = dayTotalHoursClaim entries ∧
    calendarCellTotalHours entries = dayTotalHoursClaim entries ∧
    adminDashboardTotalHours rows =
      (rows.map (fun r => ((periodDays r).map dayTotalHoursClaim).sum)).sum := by
  refine ⟨?_, ?_, ?_⟩
  · rw [dailyOverviewTotalHours, foldl_add_map_sum, zero_add, dayTotalHoursClaim,
      ← sum_map_div]
    congr 1
    apply List.map_congr_left
    intro e _
    rw [dailyOverviewEntryHours]
    ring
  · rw [calendarCellTotalHours, foldl_add_map_sum, zero_add, dayTotalHoursClaim,
      ← sum_map_div]
    congr 1
    apply List.map_congr_left
    intro e he
    exact hdur e he
  · rw [adminDashboardTotalHours, foldl_add_map_sum, zero_add]
    congr 1
    apply List.map_congr_left
    intro r hr
    rw [hrows r hr, periodTotalHours]

/-- Witness for C1 at the two concrete entries and one summary row. -/
theorem dayAggregation_correct_witness :
    dailyOverviewTotalHours [wEntry1, wEntry2] =
      dayTotalHoursClaim [wEntry1, wEntry2] ∧
    calendarCellTotalHours [wEntry1, wEntry2] =
      dayTotalHoursClaim [wEntry1, wEntry2] ∧
    adminDashboardTotalHours [wRow] =
      ([wRow].map (fun _ => ([[wEntry1, wEntry2]].map dayTotalHoursClaim).sum)).sum :=
  dayAggregation_correct [wEntry1, wEntry2] [wRow]
    (fun _ => [[wEntry1, wEntry2]])
    (by
      intro e he
      rw [DurationFieldCoherent]
      rcases List.mem_cons.mp he with rfl | he2
      · norm_num [wEntry1]
      · rcases List.mem_singleton.mp he2 with rfl
        norm_num [wEntry2])
    (by
      intro r hr
      rcases List.mem_singleton.mp hr with rfl
      norm_num [wRow, periodTotalHours, dayTotalHoursClaim, wEntry1, wEntry2])

/-- C2: for a non-admin the walk runs and a date is listed as missing
exactly when it is one of the Monday..Friday dates of the week, is not a
weekend day, is not a calendar holiday, carries no sick, vacation or
excused status, and has no time entry; the reminder dialog opens exactly
when the list is non-empty; for an admin no walk is performed. -/
theorem weeklyReminder_walk (role : UserRole) (weekStart : Nat)
    (ctx : WeekContext) (d : Nat) (_hMonday : weekStart % 7 = 1) :
    (role = UserRole.admin →
      checkWeeklyEntries role weekStart ctx =
        { walkPerformed := false, missingDays := [], reminderVisible := false }) ∧
    (role ≠ UserRole.admin →
      (checkWeeklyEntries role weekStart ctx).walkPerformed = true ∧
      (d ∈ (checkWeeklyEntries role weekStart ctx).missingDays ↔
        d ∈ weekDays weekStart ∧ ¬(d % 7 = 0 ∨ d % 7 = 6) ∧
        ctx.calDayType d ≠ some DayType.holiday ∧
        skipStatus (ctx.dayStatus d) = false ∧
        ctx.hasEntry d = false) ∧
      ((checkWeeklyEntries role weekStart ctx).reminderVisible = true ↔
        (checkWeeklyEntries role weekStart ctx).missingDays ≠ [])) := by
  constructor
  · intro hrole
    rw [checkWeeklyEntries, if_pos hrole]
  · intro hrole
    rw [checkWeeklyEntries, if_neg hrole]
    refine ⟨rfl, mem_walkMissing ctx (weekDays weekStart) d, ?_⟩
    simp [List.length_pos]

/-- Witness for C2: weekStart 8 is a Monday; the outcome for an employee
with empty maps is the applied characterization. -/
theorem weeklyReminder_walk_witness :
    ((UserRole.employee = UserRole.admin →
      checkWeeklyEntries UserRole.employee 8
          { calDayType := fun _ => none, dayStatus := fun _ => none,
            hasEntry := fun _ => false } =
        { walkPerformed := false, missingDays := [], reminderVisible := false }) ∧
    (UserRole.employee ≠ UserRole.admin →
      (checkWeeklyEntries UserRole.employee 8
          { calDayType := fun _ => none, dayStatus := fun _ => none,
            hasEntry := fun _ => false }).walkPerformed = true ∧
      (9 ∈ (checkWeeklyEntries UserRole.employee 8
          { calDayType := fun _ => none, dayStatus := fun _ => none,
            hasEntry := fun _ => false }).missingDays ↔
        9 ∈ weekDays 8 ∧ ¬(9 % 7 = 0 ∨ 9 % 7 = 6) ∧
        (fun (_ : Nat) => (none : Option DayType)) 9 ≠ some DayType.holiday ∧
        skipStatus ((fun (_ : Nat) => (none : Option StatusType)) 9) = false ∧
        (fun (_ : Nat) => false) 9 = false) ∧
      ((checkWeeklyEntries UserRole.employee 8
          { calDayType := fun _ => none, dayStatus := fun _ => none,
            hasEntry := fun _ => false }).reminderVisible = true ↔
        (checkWeeklyEntries UserRole.employee 8
          { calDayType := fun _ => none, dayStatus := fun _ => none,
            hasEntry := fun _ => false }).missingDays ≠ []))) :=
  weeklyReminder_walk UserRole.employee 8
    { calDayType := fun _ => none, dayStatus := fun _ => none,
      hasEntry := fun _ => false } 9 (by decide)

/-- Counterexample to C3: the edit-vacation form accepts an update whose
end date precedes its start date (both dates merely have to be on or after
today), so not every accepted vacation update has date_to at or after
date_from. -/
theorem vacationEditOrder_counterexample :
    editVacationFormAccepts 100 105 103 = true ∧
    (handleEditVacationPayload 105 103).date_to <
      (handleEditVacationPayload 105 103).date_from := by
  decide

/-- C3 amended: a vacation created from the range picker keeps the picked
order, so an ordered range yields date_from at most date_to; the
edit-vacation form accepts exactly the date pairs in which both dates are
not before today, with no rule relating the two dates, and submits them
unchanged. -/
theorem vacationDates_amended (d1 d2 today e1 e2 : Nat) (h : d1 ≤ d2) :
    (handleCreateVacationPayload (d1, d2)).date_from ≤
      (handleCreateVacationPayload (d1, d2)).date_to ∧
    (editVacationFormAccepts today e1 e2 = true ↔ today ≤ e1 ∧ today ≤ e2) ∧
    handleEditVacationPayload e1 e2 = { date_from := e1, date_to := e2 } := by
  refine ⟨h, ?_, rfl⟩
  simp [editVacationFormAccepts, editVacationDateSelectable, Nat.not_lt]

/-- Witness for the amended C3 at concrete dates. -/
theorem vacationDates_amended_witness :
    (handleCreateVacationPayload (3, 5)).date_from ≤
      (handleCreateVacationPayload (3, 5)).date_to ∧
    (editVacationFormAccepts 2 7 9 = true ↔ 2 ≤ 7 ∧ 2 ≤ 9) ∧
    handleEditVacationPayload 7 9 = { date_from := 7, date_to := 9 } :=
  vacationDates_amended 3 5 2 7 9 (by decide)

/-- Counterexample to C4: while the auth store is loading, an admin route
rendered for an authenticated non-admin shows the loading spinner rather
than a redirect to /. -/
theorem adminRoute_counterexample :
    AdminRoute true true (some sampleUser) = RenderResult.spinner ∧
    RenderResult.spinner ≠ RenderResult.navigate "/" := by
  exact ⟨rfl, by decide⟩

/-- C4 amended: the admin page children render exactly for an
authenticated admin with loading finished; while loading the route renders
a spinner; once loading finishes an unauthenticated visitor is redirected
to /login and an authenticated non-admin to /. -/
theorem adminRoute_amended (l a : Bool) (u : Option User) :
    (AdminRoute l a u = RenderResult.children ↔
      l = false ∧ a = true ∧ userRoleIsAdmin u = true) ∧
    (l = true → AdminRoute l a u = RenderResult.spinner) ∧
    (l = false → a = false → AdminRoute l a u = RenderResult.navigate "/login") ∧
    (l = false → a = true → userRoleIsAdmin u = false →
      AdminRoute l a u = RenderResult.navigate "/") := by
  cases l <;> cases a <;> cases hu : userRoleIsAdmin u <;>
    simp [AdminRoute, hu]

/-- Witness for the amended C4: a loading render for an authenticated
non-admin is the spinner. -/
theorem adminRoute_amended_witness :
    AdminRoute true true (some sampleUser) = RenderResult.spinner :=
  (adminRoute_amended true true (some sampleUser)).2.1 rfl

/-- Counterexample to C5: the API client does run a recovery protocol and
does distinguish an application-specific error code. A 401 response that
has not yet been retried, with a refresh token in storage and a successful
refresh, is automatically replayed; and the detail EDIT_TIME_EXPIRED makes
the edit handler open the change-request flow instead of showing the error
message. -/
theorem errorHandling_counterexample :
    responseInterceptorOnError true true
      { status := 401, retried := false, detail := none } =
      InterceptorAction.refreshAndRetry ∧
    handleEditEntryCatch (some "EDIT_TIME_EXPIRED") =
      EntryErrorHandling.openChangeRequestFlow := by
  decide

/-- C5 amended: the interceptor replays a failed request exactly when it
failed with 401, was not already retried, a refresh token is present and
the refresh succeeds; the edit and delete catch blocks open the
change-request flow exactly when the error detail is EDIT_TIME_EXPIRED,
and otherwise show a message. -/
theorem errorHandling_amended (hasRT ok : Bool) (e : ApiError)
    (d : Option String) :
    (responseInterceptorOnError hasRT ok e = InterceptorAction.refreshAndRetry ↔
      e.status = 401 ∧ e.retried = false ∧ hasRT = true ∧ ok = true) ∧
    (handleEditEntryCatch d = EntryErrorHandling.openChangeRequestFlow ↔
      d = some "EDIT_TIME_EXPIRED") ∧
    (handleDeleteEntryCatch d = EntryErrorHandling.openChangeRequestFlow ↔
      d = some "EDIT_TIME_EXPIRED") := by
  refine ⟨?_, ?_, ?_⟩
  · rw [responseInterceptorOnError]
    split_ifs with h1 h2 h3 <;> simp_all
  · rw [handleEditEntryCatch]
    split_ifs with h1 <;> simp_all
  · rw [handleDeleteEntryCatch]
    split_ifs with h1 <;> simp_all

/-- C6: each of the three create paths sends the request exactly when the
existing worked minutes of the day plus the new entry's worked minutes do
not exceed 480, and on rejection performs nothing but the error message.
For the weekly form the day has no existing entries (the reminder only
lists such days), so its existing worked minutes are zero. -/
theorem maxDailyCap_atomic (today selDate fday : Nat)
    (summary : Option DaySummary) (v : EntryFormValues) (fsum : DaySummary)
    (hfill : fsum.entries = []) :
    ((sentCreatePayload (dashboardHandleCreateEntry today summary v)).isSome = true ↔
      existingWorkMinutes summary + newWorkMinutes summary v ≤ 480) ∧
    (existingWorkMinutes summary + newWorkMinutes summary v > 480 →
      dashboardHandleCreateEntry today summary v = [UIEffect.messageError]) ∧
    ((sentCreatePayload (calendarHandleCreateEntry selDate summary v)).isSome = true ↔
      existingWorkMinutes summary + newWorkMinutes summary v ≤ 480) ∧
    (existingWorkMinutes summary + newWorkMinutes summary v > 480 →
      calendarHandleCreateEntry selDate summary v = [UIEffect.messageError]) ∧
    ((sentCreatePayload (weeklyHandleEntrySubmit fday v)).isSome = true ↔
      existingWorkMinutes (some fsum) +
        (((v.end_time : Rat) - (v.start_time : Rat)) - 60) ≤ 480) ∧
    (((v.end_time : Rat) - (v.start_time : Rat)) - 60 > 480 →
      weeklyHandleEntrySubmit fday v = [UIEffect.messageError]) := by
  have hzero : existingWorkMinutes (some fsum) = 0 := by
    simp [existingWorkMinutes, summaryEntries, hfill]
  refine ⟨?_, ?_, ?_, ?_, ?_, ?_⟩
  · by_cases hc : existingWorkMinutes summary + newWorkMinutes summary v > 480
    · rw [dashboardHandleCreateEntry, if_pos hc]
      exact iff_of_false (by simp [sentCreatePayload]) (not_le.mpr hc)
    · rw [dashboardHandleCreateEntry, if_neg hc]
      exact iff_of_true (by simp [sentCreatePayload]) (not_lt.mp hc)
  · intro hc; rw [dashboardHandleCreateEntry, if_pos hc]
  · by_cases hc : existingWorkMinutes summary + newWorkMinutes summary v > 480
    · rw [calendarHandleCreateEntry, if_pos hc]
      exact iff_of_false (by simp [sentCreatePayload]) (not_le.mpr hc)
    · rw [calendarHandleCreateEntry, if_neg hc]
      exact iff_of_true (by simp [sentCreatePayload]) (not_lt.mp hc)
  · intro hc; rw [calendarHandleCreateEntry, if_pos hc]
  · rw [hzero, zero_add]
    by_cases hc : ((v.end_time : Rat) - (v.start_time : Rat)) - 60 > 480
    · rw [weeklyHandleEntrySubmit, if_pos hc]
      exact iff_of_false (by simp [sentCreatePayload]) (not_le.mpr hc)
    · rw [weeklyHandleEntrySubmit, if_neg hc]
      exact iff_of_true (by simp [sentCreatePayload]) (not_lt.mp hc)
  · intro hc; rw [weeklyHandleEntrySubmit, if_pos hc]

/-- Witness for C6 at a concrete day with one existing one-hour entry and
a new one-hour entry, and an empty day for the weekly form. -/
theorem maxDailyCap_atomic_witness :
    ((sentCreatePayload (dashboardHandleCreateEntry 0
        (some { entries := [wSmallEntry] })
        { start_time := 600, end_time := 660, workplace := WorkplaceType.office })).isSome = true ↔
      existingWorkMinutes (some { entries := [wSmallEntry] }) +
        newWorkMinutes (some { entries := [wSmallEntry] })
          { start_time := 600, end_time := 660, workplace := WorkplaceType.office } ≤ 480) ∧
    (existingWorkMinutes (some { entries := [wSmallEntry] }) +
        newWorkMinutes (some { entries := [wSmallEntry] })
          { start_time := 600, end_time := 660, workplace := WorkplaceType.office } > 480 →
      dashboardHandleCreateEntry 0 (some { entries := [wSmallEntry] })
        { start_time := 600, end_time := 660, workplace := WorkplaceType.office } =
        [UIEffect.messageError]) ∧
    ((sentCreatePayload (calendarHandleCreateEntry 0
        (some { entries := [wSmallEntry] })
        { start_time := 600, end_time := 660, workplace := WorkplaceType.office })).isSome = true ↔
      existingWorkMinutes (some { entries := [wSmallEntry] }) +
        newWorkMinutes (some { entries := [wSmallEntry] })
          { start_time := 600, end_time := 660, workplace := WorkplaceType.office } ≤ 480) ∧
    (existingWorkMinutes (some { entries := [wSmallEntry] }) +
        newWorkMinutes (some { entries := [wSmallEntry] })
          { start_time := 600, end_time := 660, workplace := WorkplaceType.office } > 480 →
      calendarHandleCreateEntry 0 (some { entries := [wSmallEntry] })
        { start_time := 600, end_time := 660, workplace := WorkplaceType.office } =
        [UIEffect.messageError]) ∧
    ((sentCreatePayload (weeklyHandleEntrySubmit 0
        { start_time := 600, end_time := 660, workplace := WorkplaceType.office })).isSome = true ↔
      existingWorkMinutes (some { entries := [] }) +
        (((660 : Nat) : Rat) - ((600 : Nat) : Rat) - 60) ≤ 480) ∧
    (((660 : Nat) : Rat) - ((600 : Nat) : Rat) - 60 > 480 →
      weeklyHandleEntrySubmit 0
        { start_time := 600, end_time := 660, workplace := WorkplaceType.office } =
        [UIEffect.messageError]) :=
  maxDailyCap_atomic 0 0 0 (some { entries := [wSmallEntry] })
    { start_time := 600, end_time := 660, workplace := WorkplaceType.office }
    { entries := [] } rfl

/-- Counterexample to C7: the admin daily-overview modal sends a freely
chosen break value. Creating a first entry of a day through it sends the
prefilled break 0, not 60, and editing an entry whose break is 0 can send
break 30, changing break_minutes. -/
theorem breakMinutes_counterexample :
    handleSaveEntry 0 none
      { start_time := 540, end_time := 1020,
        break_minutes := adminAddModalDefaultBreak,
        workplace := WorkplaceType.office } =
      UIEffect.apiCreateTimeEntry
        { date := 0, start_time := 540, end_time := 1020,
          break_minutes := 0, workplace := WorkplaceType.office } ∧
    (0 : Nat) ≠ 60 ∧
    handleSaveEntry 0 (some wSmallEntry)
      { start_time := 600, end_time := 660, break_minutes := 30,
        workplace := WorkplaceType.office } =
      UIEffect.apiUpdateTimeEntry 7
        { start_time := 600, end_time := 660, break_minutes := 30,
          workplace := WorkplaceType.office } ∧
    (30 : Nat) ≠ wSmallEntry.break_minutes := by
  refine ⟨rfl, by decide, rfl, by decide⟩

/-- C7 amended: for the employee-facing dashboard, calendar and
weekly-reminder forms every create payload carries break 60 when the day
has no entries and 0 otherwise (the weekly form always sends 60 and only
runs for days without entries), an employee edit sends the entry's
original break unchanged, and add/edit change requests follow the same
rule; the admin daily-overview modal instead sends the freely chosen form
break unchanged, both when creating and when updating an entry. -/
theorem breakMinutesRule (today selDate fday : Nat) (summary : Option DaySummary)
    (v : EntryFormValues) (p q r : TimeEntryPayload) (u : TimeEntryUpdatePayload)
    (editingEntry : TimeEntry) (crv : ChangeRequestFormValues) (en : TimeEntry)
    (av : AdminEntryFormValues) (adminEntry : TimeEntry)
    (hp : sentCreatePayload (dashboardHandleCreateEntry today summary v) = some p)
    (hq : sentCreatePayload (calendarHandleCreateEntry selDate summary v) = some q)
    (hu : sentUpdatePayload (calendarHandleEditEntry editingEntry v) = some u)
    (hr : sentCreatePayload (weeklyHandleEntrySubmit fday v) = some r)
    (hfind : (summaryEntries summary).find?
      (fun e => e.id == crv.time_entry_id) = some en) :
    p.break_minutes = (if summaryEntries summary = [] then 60 else 0) ∧
    q.break_minutes = (if summaryEntries summary = [] then 60 else 0) ∧
    u.break_minutes = editingEntry.break_minutes ∧
    r.break_minutes = 60 ∧
    (crv.request_type = ChangeRequestType.add →
      changeRequestBreakMins summary crv =
        (if summaryEntries summary = [] then 60 else 0)) ∧
    (crv.request_type = ChangeRequestType.edit →
      changeRequestBreakMins summary crv = en.break_minutes) ∧
    handleSaveEntry selDate none av =
      UIEffect.apiCreateTimeEntry
        { date := selDate, start_time := av.start_time,
          end_time := av.end_time, break_minutes := av.break_minutes,
          workplace := av.workplace } ∧
    handleSaveEntry selDate (some adminEntry) av =
      UIEffect.apiUpdateTimeEntry adminEntry.id
        { start_time := av.start_time, end_time := av.end_time,
          break_minutes := av.break_minutes, workplace := av.workplace } := by
  have hbreak : createBreakMins summary =
      (if summaryEntries summary = [] then 60 else 0) := by
    simp [createBreakMins, isFirstEntry]
  refine ⟨?_, ?_, ?_, ?_, ?_, ?_, rfl, rfl⟩
  · by_cases hc : existingWorkMinutes summary + newWorkMinutes summary v > 480
    · rw [dashboardHandleCreateEntry, if_pos hc] at hp
      simp [sentCreatePayload] at hp
    · rw [dashboardHandleCreateEntry, if_neg hc] at hp
      simp [sentCreatePayload] at hp
      rw [← hp, hbreak]
  · by_cases hc : existingWorkMinutes summary + newWorkMinutes summary v > 480
    · rw [calendarHandleCreateEntry, if_pos hc] at hq
      simp [sentCreatePayload] at hq
    · rw [calendarHandleCreateEntry, if_neg hc] at hq
      simp [sentCreatePayload] at hq
      rw [← hq, hbreak]
  · by_cases hc : ((v.end_time : Rat) - (v.start_time : Rat)) -
        (editingEntry.break_minutes : Rat) > 480
    · rw [calendarHandleEditEntry, if_pos hc] at hu
      simp [sentUpdatePayload] at hu
    · rw [calendarHandleEditEntry, if_neg hc] at hu
      simp [sentUpdatePayload] at hu
      rw [← hu]
  · by_cases hc : ((v.end_time : Rat) - (v.start_time : Rat)) - 60 > 480
    · rw [weeklyHandleEntrySubmit, if_pos hc] at hr
      simp [sentCreatePayload] at hr
    · rw [weeklyHandleEntrySubmit, if_neg hc] at hr
      simp [sentCreatePayload] at hr
      rw [← hr]
  · intro ht
    rw [changeRequestBreakMins, ht]
    simp [List.isEmpty_iff]
  · intro ht
    rw [changeRequestBreakMins, ht]
    simp [hfind]

/-- Witness for C7 at a day holding one one-hour entry with break 0 and a
new 10:00 to 11:00 entry. -/
theorem breakMinutesRule_witness :
    ({ date := 0, start_time := 600, end_time := 660, break_minutes := 0,
       workplace := WorkplaceType.office } : TimeEntryPayload).break_minutes =
      (if summaryEntries (some { entries := [wSmallEntry] }) = [] then 60 else 0) ∧
    ({ date := 0, start_time := 600, end_time := 660, break_minutes := 0,
       workplace := WorkplaceType.office } : TimeEntryPayload).break_minutes =
      (if summaryEntries (some { entries := [wSmallEntry] }) = [] then 60 else 0) ∧
    ({ start_time := 600, end_time := 660, break_minutes := 0,
       workplace := WorkplaceType.office } : TimeEntryUpdatePayload).break_minutes =
      wSmallEntry.break_minutes ∧
    ({ date := 0, start_time := 600, end_time := 660, break_minutes := 60,
       workplace := WorkplaceType.office } : TimeEntryPayload).break_minutes = 60 ∧
    (({ request_type := ChangeRequestType.edit, time_entry_id := 7,
        break_minutes := 60 } : ChangeRequestFormValues).request_type =
          ChangeRequestType.add →
      changeRequestBreakMins (some { entries := [wSmallEntry] })
          { request_type := ChangeRequestType.edit, time_entry_id := 7,
            break_minutes := 60 } =
        (if summaryEntries (some { entries := [wSmallEntry] }) = [] then 60 else 0)) ∧
    (({ request_type := ChangeRequestType.edit, time_entry_id := 7,
        break_minutes := 60 } : ChangeRequestFormValues).request_type =
          ChangeRequestType.edit →
      changeRequestBreakMins (some { entries := [wSmallEntry] })
          { request_type := ChangeRequestType.edit, time_entry_id := 7,
            break_minutes := 60 } = wSmallEntry.break_minutes) ∧
    handleSaveEntry 0 none
      { start_time := 600, end_time := 660, break_minutes := 30,
        workplace := WorkplaceType.office } =
      UIEffect.apiCreateTimeEntry
        { date := 0, start_time := 600, end_time := 660, break_minutes := 30,
          workplace := WorkplaceType.office } ∧
    handleSaveEntry 0 (some wSmallEntry)
      { start_time := 600, end_time := 660, break_minutes := 30,
        workplace := WorkplaceType.office } =
      UIEffect.apiUpdateTimeEntry wSmallEntry.id
        { start_time := 600, end_time := 660, break_minutes := 30,
          workplace := WorkplaceType.office } :=
  breakMinutesRule 0 0 0 (some { entries := [wSmallEntry] })
    { start_time := 600, end_time := 660, workplace := WorkplaceType.office }
    { date := 0, start_time := 600, end_time := 660, break_minutes := 0,
      workplace := WorkplaceType.office }
    { date := 0, start_time := 600, end_time := 660, break_minutes := 0,
      workplace := WorkplaceType.office }
    { date := 0, start_time := 600, end_time := 660, break_minutes := 60,
      workplace := WorkplaceType.office }
    { start_time := 600, end_time := 660, break_minutes := 0,
      workplace := WorkplaceType.office }
    wSmallEntry
    { request_type := ChangeRequestType.edit, time_entry_id := 7,
      break_minutes := 60 }
    wSmallEntry
    { start_time := 600, end_time := 660, break_minutes := 30,
      workplace := WorkplaceType.office }
    wSmallEntry
    (by
      rw [dashboardHandleCreateEntry, if_neg (by
        norm_num [existingWorkMinutes, newWorkMinutes, createBreakMins,
          isFirstEntry, summaryEntries, wSmallEntry])]
      rfl)
    (by
      rw [calendarHandleCreateEntry, if_neg (by
        norm_num [existingWorkMinutes, newWorkMinutes, createBreakMins,
          isFirstEntry, summaryEntries, wSmallEntry])]
      rfl)
    (by
      rw [calendarHandleEditEntry, if_neg (by norm_num [wSmallEntry])]
      rfl)
    (by
      rw [weeklyHandleEntrySubmit, if_neg (by norm_num)]
      rfl)
    (by decide)

/-- C8: the status universe is exactly pending, approved, rejected; the
request types offered at creation are exactly add, edit, delete; a change
request is created pending; the resolve buttons of ChangeRequestsPage are
shown exactly for a pending request, and every transition of the approval
workflow goes from pending to approved or to rejected. -/
theorem changeRequestWorkflow (s t : ChangeRequestStatus)
    (ty : ChangeRequestType) (st : ChangeRequestStatus)
    (hstep : ChangeRequestStep s t) :
    createdChangeRequestStatus = ChangeRequestStatus.pending ∧
    ty ∈ changeRequestTypeOptions ∧
    (st = ChangeRequestStatus.pending ∨ st = ChangeRequestStatus.approved ∨
      st = ChangeRequestStatus.rejected) ∧
    (resolveButtonsShown st = true ↔ st = ChangeRequestStatus.pending) ∧
    s = ChangeRequestStatus.pending ∧
    (t = ChangeRequestStatus.approved ∨ t = ChangeRequestStatus.rejected) := by
  refine ⟨rfl, ?_, ?_, ?_, ?_, ?_⟩
  · cases ty <;> simp [changeRequestTypeOptions]
  · cases st <;> simp
  · simp [resolveButtonsShown]
  · cases hstep; rfl
  · cases hstep with
    | resolve b =>
        cases b
        · exact Or.inr rfl
        · exact Or.inl rfl

/-- Witness for C8 at the approve transition. -/
theorem changeRequestWorkflow_witness :
    createdChangeRequestStatus = ChangeRequestStatus.pending ∧
    ChangeRequestType.add ∈ changeRequestTypeOptions ∧
    (ChangeRequestStatus.rejected = ChangeRequestStatus.pending ∨
      ChangeRequestStatus.rejected = ChangeRequestStatus.approved ∨
      ChangeRequestStatus.rejected = ChangeRequestStatus.rejected) ∧
    (resolveButtonsShown ChangeRequestStatus.rejected = true ↔
      ChangeRequestStatus.rejected = ChangeRequestStatus.pending) ∧
    ChangeRequestStatus.pending = ChangeRequestStatus.pending ∧
    (handleResolveStatus true = ChangeRequestStatus.approved ∨
      handleResolveStatus true = ChangeRequestStatus.rejected) :=
  changeRequestWorkflow ChangeRequestStatus.pending (handleResolveStatus true)
    ChangeRequestType.add ChangeRequestStatus.rejected
    (ChangeRequestStep.resolve true)

/-- Counterexample to C9: the client does run a timer-driven periodic job
and does persist server data locally. Mounting the notification bell
schedules a 60000 millisecond polling interval, and a fetched company
settings object, different from the defaults, is written to the persisted
settings-storage slice. -/
theorem clientScheduling_counterexample :
    ClientEffect.setPeriodicTimer 60000 ∈ notificationBellMountEffects ∧
    settingsPartialize (fetchSettingsSuccess settingsInitial wServerSettings) =
      wServerSettings ∧
    wServerSettings ≠ defaultSettings := by
  decide

/-- C9 amended: the client does run a timer-driven periodic job and does
keep locally persisted server data. Mounting the notification bell
schedules a 60000 millisecond polling interval; a successful settings
fetch stores the server settings in the persisted settings-storage slice;
and a successful login or auth check stores the server-returned user in
the persisted auth-storage slice. -/
theorem clientScheduling_amended (s : SettingsState) (f : CompanySettings)
    (a : AuthState) (u : User) :
    ClientEffect.setPeriodicTimer 60000 ∈ notificationBellMountEffects ∧
    settingsPartialize (fetchSettingsSuccess s f) = f ∧
    (authPersistSlice (authStep a (AuthOp.loginSuccess u))).user = some u ∧
    (authPersistSlice (authStep a (AuthOp.checkAuthSuccess u))).user = some u := by
  refine ⟨?_, rfl, rfl, rfl⟩
  simp [notificationBellMountEffects]

end TimeControl
